import Mathlib

/-!
Verification development for the distributed-load-testing orchestration design
and its CDK front-end constructs.

The front-end constructs (`DLTConsoleConstruct`, `CognitoAuthConstruct`) are
embedded from `source/infrastructure/lib/front-end/console.ts`.  The
orchestration components (Worker Fleet Controller, Run State Machine,
Cancellation Coordinator, Results Aggregator) are not shipped in the source
tree; they are modelled from the design document (spec.md §3–§4, §6).
-/

namespace DLT

/-- Ceiling division on naturals: `ceilDiv a b = ⌈a / b⌉` for `b > 0`. -/
def ceilDiv (a b : Nat) : Nat := (a + b - 1) / b

instance {ε α : Type} [DecidableEq ε] [DecidableEq α] : DecidableEq (Except ε α) := fun x y =>
  match x, y with
  | .ok a, .ok b => if h : a = b then .isTrue (by rw [h]) else .isFalse (by simp [h])
  | .error a, .error b => if h : a = b then .isTrue (by rw [h]) else .isFalse (by simp [h])
  | .ok _, .error _ => .isFalse (by simp)
  | .error _, .ok _ => .isFalse (by simp)

/-! ## Worker Fleet Controller (spec §4.1)

Modelled from the spec: the fleet-controller source is not in the repository.
"Computes `workerCount = override ?? ceil(desiredConcurrency / workerCapacity)`,
capped at a configured maximum fleet size; fails with `CapacityExceeded` if the
computed count exceeds the cap and no override was given.  Distributes workers
across requested regions using round-robin." -/

/-- Modelled from the spec: a stored test scenario (spec §3), immutable input
to the Fleet Controller. -/
structure Scenario where
  id : Nat
  displayName : String
  rawConfig : String
  desiredConcurrency : Nat
  workerCapacity : Nat
  duration : Nat
  rampUp : Nat
  regions : List String
  workerCountOverride : Option Nat
deriving DecidableEq, Repr

/-- Modelled from the spec: fleet-controller error taxonomy (spec §7). -/
inductive FleetError
  | CapacityExceeded
  | LaunchPartialFailure
deriving DecidableEq, Repr

/-- Modelled from the spec: worker count computation (spec §4.1).
`override ?? ceil(desired / capacity)`, capped at the maximum fleet size;
`CapacityExceeded` when the non-overridden count exceeds the cap. -/
def computeWorkerCount (desired capacity : Nat) (override : Option Nat)
    (maxFleet : Nat) : Except FleetError Nat :=
  match override with
  | some o => .ok (min o maxFleet)
  | none =>
    if ceilDiv desired capacity > maxFleet then .error .CapacityExceeded
    else .ok (ceilDiv desired capacity)

/-- Modelled from the spec: round-robin share of region index `i` when `w`
workers are spread over `r` regions — one worker per region per round, so the
first `w % r` regions receive one extra worker. -/
def regionShare (w r i : Nat) : Nat :=
  w / r + if i < w % r then 1 else 0

/-- The per-region worker counts for `w` workers over `r` regions. -/
def shareList (w r : Nat) : List Nat :=
  (List.range r).map (regionShare w r)

/-- Modelled from the spec: round-robin distribution of `w` workers over the
listed regions (spec §4.1), returning each region paired with its count. -/
def distributeWorkers (w : Nat) (regions : List String) : List (String × Nat) :=
  regions.zip (shareList w regions.length)

/-! ## Front-end console construct (`DLTConsoleConstruct`, console.ts) -/

/-- One entry of `cloudFrontDistributionProps.errorResponses` in console.ts. -/
structure ErrorResponse where
  httpStatus : Nat
  responseHttpStatus : Nat
  responsePagePath : String
deriving DecidableEq, Repr

/-- The CloudFront distribution properties that `DLTConsoleConstruct` passes
to `CloudFrontToS3`, plus the `CloudFrontDefaultCertificate` property
override applied afterwards. -/
structure CloudFrontDistributionProps where
  comment : String
  enableLogging : Bool
  errorResponses : List ErrorResponse
  httpVersion : String
  domainNames : String
  certificateArn : String
  sslSupportMethod : String
  cloudFrontDefaultCertificate : String
deriving DecidableEq, Repr

/-- Props of `DLTConsoleConstruct` (console.ts). -/
structure DLTConsoleConstructProps where
  s3LogsBucketName : String
  solutionId : String
  cloudFrontAliases : String
  cloudFrontCertificateArn : String
  sslSupportMethod : String
  cloudFrontDefaultCertificate : String
deriving DecidableEq, Repr

/-- The resources created by `DLTConsoleConstruct`. -/
structure DLTConsole where
  distribution : CloudFrontDistributionProps
  cloudFrontDomainName : String
  consoleBucketArn : String
deriving DecidableEq, Repr

/-- CDK token standing for the distribution's generated domain name. -/
def cloudFrontDomainToken : String := "Token(DLTCloudFrontToS3.DomainName)"

/-- CDK token standing for the console bucket ARN. -/
def consoleBucketArnToken : String := "Token(DLTCloudFrontToS3.BucketArn)"

/-- Embedding of the `DLTConsoleConstruct` constructor body (console.ts):
builds the CloudFront-to-S3 distribution with the literal properties the
source passes, including the two SPA error rewrites. -/
def dltConsoleConstruct (props : DLTConsoleConstructProps) : DLTConsole :=
  { distribution :=
      { comment := "Website distribution for the Distributed Load Testing solution"
        enableLogging := true
        errorResponses :=
          [ { httpStatus := 403, responseHttpStatus := 200, responsePagePath := "/index.html" }
          , { httpStatus := 404, responseHttpStatus := 200, responsePagePath := "/index.html" } ]
        httpVersion := "http2"
        domainNames := props.cloudFrontAliases
        certificateArn := props.cloudFrontCertificateArn
        sslSupportMethod := props.sslSupportMethod
        cloudFrontDefaultCertificate := props.cloudFrontDefaultCertificate }
    cloudFrontDomainName := cloudFrontDomainToken
    consoleBucketArn := consoleBucketArnToken }

/-! ## Cognito auth construct (`CognitoAuthConstruct`, console.ts) -/

/-- Props of `CognitoAuthConstruct` (console.ts). -/
structure CognitoAuthConstructProps where
  adminEmail : String
  adminName : String
  apiId : String
  cloudFrontDomainName : String
  scenariosBucketArn : String
  existingCognitoPoolId : String
deriving DecidableEq, Repr

/-- The `passwordPolicy` block of the `DLTUserPool` user pool. -/
structure PasswordPolicy where
  minLength : Nat
  requireLowercase : Bool
  requireDigits : Bool
  requireSymbols : Bool
  requireUppercase : Bool
deriving DecidableEq, Repr

/-- The `DLTUserPool` user pool properties set in console.ts. -/
structure UserPoolModel where
  autoVerifyEmail : Bool
  passwordPolicy : PasswordPolicy
  selfSignUpEnabled : Bool
  signInAliasEmail : Bool
  signInAliasUsername : Bool
  emailRequired : Bool
  advancedSecurityMode : String
deriving DecidableEq, Repr

/-- The `DLTIdentityPool` identity pool properties set in console.ts. -/
structure IdentityPoolModel where
  allowUnauthenticatedIdentities : Bool
  providerClientId : String
deriving DecidableEq, Repr

/-- The resources created by `CognitoAuthConstruct`. -/
structure CognitoAuth where
  userPool : UserPoolModel
  userPoolCreated : Bool
  cognitoUserPoolId : String
  identityPool : IdentityPoolModel
  cognitoUserPoolClientId : String
deriving DecidableEq, Repr

/-- CDK token standing for the `Ref` of the newly created `DLTUserPool`. -/
def dltUserPoolRefToken : String := "Ref(DLTUserPool)"

/-- CDK token standing for the generated user pool client id. -/
def userPoolClientIdToken : String := "Ref(DLTUserPoolClient)"

/-- Embedding of the `CognitoAuthConstruct` constructor body (console.ts):
the `createUserPoolResource` CFN condition is `existingCognitoPoolId = ""`;
the `CfnUserPool` resource carries that condition (so it is created exactly
when the condition holds), and `cognitoUserPoolId` is the `Fn.conditionIf`
of the condition, the new pool's id, and the existing pool id. -/
def cognitoAuthConstruct (props : CognitoAuthConstructProps) : CognitoAuth :=
  { userPool :=
      { autoVerifyEmail := true
        passwordPolicy :=
          { minLength := 12
            requireLowercase := true
            requireDigits := true
            requireSymbols := true
            requireUppercase := true }
        selfSignUpEnabled := false
        signInAliasEmail := true
        signInAliasUsername := true
        emailRequired := true
        advancedSecurityMode := "ENFORCED" }
    userPoolCreated := if props.existingCognitoPoolId = "" then true else false
    cognitoUserPoolId :=
      if props.existingCognitoPoolId = "" then dltUserPoolRefToken
      else props.existingCognitoPoolId
    identityPool :=
      { allowUnauthenticatedIdentities := false
        providerClientId := userPoolClientIdToken }
    cognitoUserPoolClientId := userPoolClientIdToken }

/-! ## Results Aggregator (spec §4.4)

Modelled from the spec: the aggregator source is not in the repository.
"Total requests and error counts sum directly; throughput sums across
workers; latency percentiles are recomputed from merged histograms, not
averaged directly.  Per-region breakdown groups contributing tasks by
assigned region.  Fails with `NoArtifacts` if none succeeded." -/

/-- Modelled from the spec: one successful worker's result artifact
(spec §3/§4.4) — counts, throughput and its latency samples (histogram). -/
structure PerWorkerSummary where
  region : String
  totalRequests : Nat
  errorCount : Nat
  throughput : Nat
  latencies : List Nat
deriving DecidableEq, Repr

/-- Modelled from the spec: aggregator error taxonomy (spec §7). -/
inductive AggError
  | NoArtifacts
deriving DecidableEq, Repr

/-- The merged latency histogram: all workers' samples pooled together. -/
def mergedLatencies (arts : List PerWorkerSummary) : List Nat :=
  arts.flatMap (·.latencies)

/-- Nearest-rank percentile of a histogram: the `⌈p·n/100⌉`-th smallest
sample (`0` on an empty histogram). -/
def percentile (samples : List Nat) (p : Nat) : Nat :=
  (List.insertionSort (· ≤ ·) samples).getD (ceilDiv (p * samples.length) 100 - 1) 0

/-- Modelled from the spec: the aggregated run-level metrics (spec §3),
with the per-region breakdown as the multiset of contributing tasks'
regions. -/
structure ResultSummary where
  totalRequests : Nat
  errorCount : Nat
  throughput : Nat
  p50 : Nat
  p90 : Nat
  p99 : Nat
  regionBreakdown : Multiset String
deriving DecidableEq

/-- Modelled from the spec: the merge algorithm of the Results Aggregator
(spec §4.4) over the successful workers' artifacts. -/
def aggregate (arts : List PerWorkerSummary) : Except AggError ResultSummary :=
  if arts.isEmpty then .error .NoArtifacts
  else
    .ok { totalRequests := (arts.map (·.totalRequests)).sum
          errorCount := (arts.map (·.errorCount)).sum
          throughput := (arts.map (·.throughput)).sum
          p50 := percentile (mergedLatencies arts) 50
          p90 := percentile (mergedLatencies arts) 90
          p99 := percentile (mergedLatencies arts) 99
          regionBreakdown := (arts.map (·.region) : List String) }

/-! ## Run State Machine and Cancellation Coordinator (spec §4.2–§4.3)

Modelled from the spec: the orchestration source is not in the repository.
States `PENDING → RUNNING → {COMPLETING → COMPLETE | PARTIAL} |
CANCELLING → CANCELLED | FAILED`; the per-tick classification rules of
§4.2; the cancellation coordinator of §4.3.  `COMPLETING` is transient:
classification routes through it to the aggregator within the same tick. -/

/-- Modelled from the spec: worker status as stored on a WorkerTask
(spec §3): PENDING/RUNNING/STOPPED/FAILED. -/
inductive TaskStatus
  | PENDING
  | RUNNING
  | STOPPED
  | FAILED
deriving DecidableEq, Repr

/-- A task status is terminal when the task no longer runs. -/
def TaskStatus.isTerminal : TaskStatus → Bool
  | .STOPPED => true
  | .FAILED => true
  | _ => false

/-- Modelled from the spec: one launched worker (spec §3): container handle,
assigned region, last observed status, artifact set once stopped
successfully. -/
structure WorkerTask where
  handle : Nat
  region : String
  status : TaskStatus
  artifact : Option PerWorkerSummary
deriving DecidableEq, Repr

/-- A worker succeeded when it stopped with an artifact (spec §4.2). -/
def WorkerTask.succeeded (t : WorkerTask) : Bool :=
  t.status = TaskStatus.STOPPED && t.artifact.isSome

/-- Modelled from the spec: run status enum (spec §4.2). -/
inductive RunStatus
  | PENDING
  | RUNNING
  | COMPLETING
  | COMPLETE
  | PARTIAL
  | CANCELLING
  | CANCELLED
  | FAILED
deriving DecidableEq, Repr

/-- Terminal run statuses (spec §4.2/§8): COMPLETE, PARTIAL, CANCELLED,
FAILED. -/
def RunStatus.isTerminal : RunStatus → Bool
  | .COMPLETE => true
  | .PARTIAL => true
  | .CANCELLED => true
  | .FAILED => true
  | _ => false

/-- Modelled from the spec: why a run was routed through cancellation
(spec §4.2/§7). -/
inductive CancelReason
  | UserRequested
  | Timeout
deriving DecidableEq, Repr

/-- Modelled from the spec: the mutable run record (spec §3), plus the
pending-cancellation flag of §5 (cancellation is a signal observed at the
next poll tick) and the time cancellation started (for the coordinator's
grace wait, §4.3). -/
structure TestRun where
  status : RunStatus
  tasks : List WorkerTask
  summary : Option ResultSummary
  cancelReason : Option CancelReason
  cancelRequested : Bool
  cancelAt : Option Nat
deriving DecidableEq

/-- Modelled from the spec: run creation (spec §4.2) — `PENDING` before any
worker is confirmed; `RUNNING` once the Fleet Controller returns at least
one live WorkerTask; `FAILED` when no worker started (LaunchFailure, §7). -/
def launchRun (tasks : List WorkerTask) : TestRun :=
  { status := if tasks.isEmpty then .FAILED else .RUNNING
    tasks := tasks
    summary := none
    cancelReason := none
    cancelRequested := false
    cancelAt := none }

/-- One observation from `DescribeTasks` for one worker: its current status
and, when stopped successfully, its artifact (spec §6). -/
def updateTask (t : WorkerTask) (o : TaskStatus × Option PerWorkerSummary) : WorkerTask :=
  if t.status.isTerminal then t
  else { t with status := o.1, artifact := o.2 }

/-- Apply the tick's observations pointwise; tasks without an observation
keep their last known status.  The task list's length never changes. -/
def updateTasks : List WorkerTask → List (TaskStatus × Option PerWorkerSummary) → List WorkerTask
  | [], _ => []
  | ts, [] => ts
  | t :: ts, o :: os => updateTask t o :: updateTasks ts os

/-- Handles of the tasks not already terminal: the targets of the
Cancellation Coordinator's stop requests (spec §4.3). -/
def stopTargets (ts : List WorkerTask) : List Nat :=
  (ts.filter (fun t => !t.status.isTerminal)).map (·.handle)

/-- Modelled from the spec: after the grace period any task still
non-terminal is force-marked STOPPED (spec §4.3). -/
def forceStopAll (ts : List WorkerTask) : List WorkerTask :=
  ts.map (fun t => if t.status.isTerminal then t else { t with status := .STOPPED })

/-- The artifacts of the tasks that stopped successfully, in task order. -/
def successArtifacts (ts : List WorkerTask) : List PerWorkerSummary :=
  (ts.filter (·.succeeded)).filterMap (·.artifact)

/-- The result of one polling tick: the advanced run record and the stop
requests issued during the tick. -/
structure TickResult where
  run : TestRun
  stopRequests : List Nat
deriving DecidableEq

/-- Modelled from the spec: enter `CANCELLING` (spec §4.2/§4.3): record the
reason and the time, and issue a stop request to every task not already
terminal. -/
def startCancel (r : TestRun) (reason : CancelReason) (now : Nat) : TickResult :=
  { run := { r with status := .CANCELLING, cancelReason := some reason, cancelAt := some now }
    stopRequests := stopTargets r.tasks }

/-- Modelled from the spec: classification once every task is terminal
(spec §4.2): none succeeded → `FAILED`; otherwise route through
`COMPLETING` to the Aggregator, landing on `COMPLETE` when all succeeded
and `PARTIAL` otherwise. -/
def classifyAllTerminal (r : TestRun) : TestRun :=
  if r.tasks.all (fun t => !t.succeeded) then { r with status := .FAILED }
  else
    match aggregate (successArtifacts r.tasks) with
    | .ok s =>
      { r with
        status := if r.tasks.all (·.succeeded) then .COMPLETE else .PARTIAL
        summary := some s }
    | .error _ => { r with status := .FAILED }

/-- Modelled from the spec: one polling tick of the Run State Machine and
Cancellation Coordinator (spec §4.2–§4.3).  In the active states the tick
updates task statuses then classifies, observing a pending cancellation
signal first ("regardless of current progress", §4.2; same-tick race, §4.3);
in `CANCELLING` the coordinator waits for tasks to stop, force-stopping
them once the grace period elapses; terminal states never transition. -/
def tick (sc : Scenario) (grace : Nat) (r : TestRun)
    (obs : List (TaskStatus × Option PerWorkerSummary)) (elapsed : Nat) : TickResult :=
  match r.status with
  | .PENDING | .RUNNING | .COMPLETING =>
    let r1 : TestRun := { r with tasks := updateTasks r.tasks obs }
    if r1.cancelRequested then startCancel r1 .UserRequested elapsed
    else if r1.tasks.all (fun t => t.status.isTerminal) then
      { run := classifyAllTerminal r1, stopRequests := [] }
    else if elapsed > sc.duration + grace then startCancel r1 .Timeout elapsed
    else { run := { r1 with status := .RUNNING }, stopRequests := [] }
  | .CANCELLING =>
    let r1 : TestRun := { r with tasks := updateTasks r.tasks obs }
    if r1.tasks.all (fun t => t.status.isTerminal) then
      { run := { r1 with status := .CANCELLED }, stopRequests := [] }
    else if r1.cancelAt.getD 0 + grace ≤ elapsed then
      { run := { r1 with tasks := forceStopAll r1.tasks, status := .CANCELLED }
        stopRequests := stopTargets r1.tasks }
    else { run := r1, stopRequests := stopTargets r1.tasks }
  | _ => { run := r, stopRequests := [] }

/-- Response of the `CancelRun` API (spec §6). -/
inductive CancelResponse
  | ok
  | alreadyTerminal
deriving DecidableEq, Repr

/-- Modelled from the spec: the `CancelRun` API (spec §5/§6): on a terminal
run it returns `AlreadyTerminal` and changes nothing; otherwise it records
the cancellation signal, which the next poll tick observes. -/
def cancelRun (r : TestRun) : TestRun × CancelResponse :=
  if r.status.isTerminal then (r, .alreadyTerminal)
  else ({ r with cancelRequested := true }, .ok)

/-- Result of the container execution service's `StopTask` (spec §6). -/
inductive StopResult
  | ok
deriving DecidableEq, Repr

/-- Modelled from the spec: the execution service's `StopTask` (spec §4.3/
§6): idempotent — stopping an already-stopped task is a no-op, not an
error. -/
def stopWorkerTask (t : WorkerTask) : WorkerTask × StopResult :=
  if t.status.isTerminal then (t, .ok)
  else ({ t with status := .STOPPED }, .ok)

/-- An externally observable operation on a run: a polling tick or a
`CancelRun` request. -/
inductive Op
  | poll (obs : List (TaskStatus × Option PerWorkerSummary)) (elapsed : Nat)
  | cancel
deriving DecidableEq, Repr

/-- Apply one operation to the run record. -/
def applyOp (sc : Scenario) (grace : Nat) (r : TestRun) : Op → TestRun
  | .poll obs elapsed => (tick sc grace r obs elapsed).run
  | .cancel => (cancelRun r).1

/-- Run a sequence of operations. -/
def runOps (sc : Scenario) (grace : Nat) (r : TestRun) (ops : List Op) : TestRun :=
  ops.foldl (applyOp sc grace) r

/-- The §3 invariant: a ResultSummary exists iff the run reached
`COMPLETE` or `PARTIAL`. -/
def summaryInv (r : TestRun) : Prop :=
  r.summary.isSome = true ↔ (r.status = RunStatus.COMPLETE ∨ r.status = RunStatus.PARTIAL)

/-! ## Sample data for concrete instantiations -/

/-- A sample scenario: concurrency 20, capacity 10, duration 60s, two regions. -/
def scSample : Scenario :=
  ⟨1, "sample", "cfg", 20, 10, 60, 5, ["us-east-1", "eu-west-1"], none⟩

/-- A sample successful worker artifact. -/
def artSampleA : PerWorkerSummary := ⟨"us-east-1", 5, 1, 2, [3, 1]⟩

/-- A second sample successful worker artifact. -/
def artSampleB : PerWorkerSummary := ⟨"eu-west-1", 7, 0, 3, [2, 4]⟩

/-- A worker that stopped successfully with an artifact. -/
def taskDoneSample : WorkerTask := ⟨0, "us-east-1", .STOPPED, some artSampleA⟩

/-- A worker still running. -/
def taskLiveSample : WorkerTask := ⟨1, "eu-west-1", .RUNNING, none⟩

/-- A run already in a terminal state. -/
def runTerminalSample : TestRun := ⟨.FAILED, [taskLiveSample], none, none, false, none⟩

/-- A running run with a pending cancellation signal. -/
def runRaceSample : TestRun := ⟨.RUNNING, [taskLiveSample], none, none, true, none⟩

/-- A running run with no cancellation signal. -/
def runTimeoutSample : TestRun := ⟨.RUNNING, [taskLiveSample], none, none, false, none⟩

/-- An observation in which the single worker stops successfully. -/
def obsSuccessSample : List (TaskStatus × Option PerWorkerSummary) :=
  [(.STOPPED, some artSampleA)]

/-! ## Arithmetic facts about `ceilDiv` and the round-robin shares -/

lemma le_ceilDiv_mul (d c : Nat) (hc : 0 < c) : d ≤ ceilDiv d c * c := by
  have h1 := Nat.div_add_mod (d + c - 1) c
  have h2 : (d + c - 1) % c < c := Nat.mod_lt _ hc
  have h3 : c * ((d + c - 1) / c) = ((d + c - 1) / c) * c := Nat.mul_comm _ _
  unfold ceilDiv
  omega

lemma ceilDiv_pred_mul_lt (d c : Nat) (hd : 0 < d) (hc : 0 < c) :
    (ceilDiv d c - 1) * c < d := by
  have h1 := Nat.div_add_mod (d + c - 1) c
  have h2 : (d + c - 1) % c < c := Nat.mod_lt _ hc
  have h3 : c * ((d + c - 1) / c) = ((d + c - 1) / c) * c := Nat.mul_comm _ _
  have h4 : ((d + c - 1) / c - 1) * c = (d + c - 1) / c * c - c := by
    rw [Nat.sub_mul, one_mul]
  unfold ceilDiv
  omega

lemma ceilDiv_eq_div_add_ind (w r : Nat) (hr : 0 < r) :
    ceilDiv w r = w / r + if 0 < w % r then 1 else 0 := by
  have h1 := Nat.div_add_mod w r
  by_cases hm : 0 < w % r
  · have hx : r * (w / r + 1) = r * (w / r) + r := by ring
    have he : w + r - 1 = r * (w / r + 1) + (w % r - 1) := by omega
    have hlt : (w % r - 1) / r = 0 := Nat.div_eq_of_lt (by have := Nat.mod_lt w hr; omega)
    unfold ceilDiv
    rw [he, Nat.mul_add_div hr, hlt]
    simp [hm]
  · have he : w + r - 1 = r * (w / r) + (r - 1) := by omega
    have hlt : (r - 1) / r = 0 := Nat.div_eq_of_lt (by omega)
    unfold ceilDiv
    rw [he, Nat.mul_add_div hr, hlt]
    simp [hm]

lemma sum_map_const_range (r q : Nat) :
    ((List.range r).map (fun _ => q)).sum = r * q := by
  induction r with
  | zero => simp
  | succ n ih => rw [List.range_succ]; simp [ih, Nat.succ_mul]

lemma sum_map_ind_range (r m : Nat) :
    ((List.range r).map (fun i => if i < m then 1 else 0)).sum = min m r := by
  induction r with
  | zero => simp
  | succ n ih =>
    rw [List.range_succ, List.map_append, List.sum_append, ih]
    by_cases h : n < m <;> simp [h] <;> omega

lemma shareList_sum (w r : Nat) (hr : 0 < r) : (shareList w r).sum = w := by
  have h1 : (shareList w r).sum
      = ((List.range r).map (fun _ => w / r)).sum
        + ((List.range r).map (fun i => if i < w % r then 1 else 0)).sum := by
    unfold shareList regionShare
    induction (List.range r) with
    | nil => simp
    | cons a l ih => simp [ih]; omega
  rw [h1, sum_map_const_range, sum_map_ind_range]
  have h2 := Nat.div_add_mod w r
  have h3 : w % r < r := Nat.mod_lt _ hr
  omega

lemma shareList_length (w r : Nat) : (shareList w r).length = r := by
  simp [shareList]

lemma mem_shareList (w r c : Nat) (h : c ∈ shareList w r) :
    c = w / r ∨ c = w / r + 1 := by
  unfold shareList at h
  rcases List.mem_map.mp h with ⟨i, _, hi⟩
  unfold regionShare at hi
  by_cases hlt : i < w % r
  · right; simp [hlt] at hi; omega
  · left; simp [hlt] at hi; omega

/-! ## Lemmas about the state machine -/

lemma terminal_frozen (sc : Scenario) (grace : Nat) (r : TestRun) (op : Op)
    (h : r.status.isTerminal = true) : applyOp sc grace r op = r := by
  rcases r with ⟨st, tasks, summ, reason, creq, cat⟩
  cases op with
  | cancel => simp_all [applyOp, cancelRun]
  | poll obs elapsed => cases st <;> simp_all [applyOp, tick, RunStatus.isTerminal]

lemma cancelling_step (sc : Scenario) (grace : Nat) (r : TestRun) (op : Op)
    (h : r.status = RunStatus.CANCELLING ∨ r.status = RunStatus.CANCELLED) :
    ((applyOp sc grace r op).status = RunStatus.CANCELLING ∨
      (applyOp sc grace r op).status = RunStatus.CANCELLED) ∧
    (applyOp sc grace r op).summary = r.summary ∧
    (applyOp sc grace r op).cancelReason = r.cancelReason := by
  rcases r with ⟨st, tasks, summ, reason, creq, cat⟩
  rcases h with h | h <;> subst h <;> cases op with
  | cancel => simp [applyOp, cancelRun, RunStatus.isTerminal]
  | poll obs elapsed =>
    simp only [applyOp, tick]
    first
    | (split_ifs <;> simp)
    | simp

lemma cancelling_runOps (sc : Scenario) (grace : Nat) (r : TestRun) (ops : List Op)
    (h : r.status = RunStatus.CANCELLING ∨ r.status = RunStatus.CANCELLED) :
    ((runOps sc grace r ops).status = RunStatus.CANCELLING ∨
      (runOps sc grace r ops).status = RunStatus.CANCELLED) ∧
    (runOps sc grace r ops).summary = r.summary ∧
    (runOps sc grace r ops).cancelReason = r.cancelReason := by
  induction ops generalizing r with
  | nil => exact ⟨h, rfl, rfl⟩
  | cons op rest ih =>
    have hs := cancelling_step sc grace r op h
    have hr := ih (applyOp sc grace r op) hs.1
    exact ⟨hr.1, hr.2.1.trans hs.2.1, hr.2.2.trans hs.2.2⟩

lemma summaryInv_step (sc : Scenario) (grace : Nat) (r : TestRun) (op : Op)
    (h : summaryInv r) : summaryInv (applyOp sc grace r op) := by
  rcases r with ⟨st, tasks, summ, reason, creq, cat⟩
  cases op with
  | cancel =>
    simp only [applyOp, cancelRun]
    split_ifs <;> simpa [summaryInv] using h
  | poll obs elapsed =>
    simp only [summaryInv] at h ⊢
    cases st <;> simp_all [applyOp, tick, startCancel, classifyAllTerminal] <;>
      split_ifs <;> simp_all <;>
      rcases hagg : aggregate (successArtifacts (updateTasks tasks obs)) with s | e <;>
      simp_all

lemma tick_cancel_precedence (sc : Scenario) (grace : Nat) (r : TestRun)
    (obs : List (TaskStatus × Option PerWorkerSummary)) (elapsed : Nat)
    (h1 : r.status = RunStatus.RUNNING) (h2 : r.cancelRequested = true) :
    tick sc grace r obs elapsed
      = startCancel { r with tasks := updateTasks r.tasks obs }
          CancelReason.UserRequested elapsed := by
  rcases r with ⟨st, tasks, summ, reason, creq, cat⟩
  subst h1
  simp_all [tick]

/-! ## Lemmas about the aggregator -/

lemma percentile_perm (l1 l2 : List Nat) (h : l1.Perm l2) (p : Nat) :
    percentile l1 p = percentile l2 p := by
  have hsort : List.insertionSort (· ≤ ·) l1 = List.insertionSort (· ≤ ·) l2 :=
    List.eq_of_perm_of_sorted
      ((List.perm_insertionSort _ l1).trans (h.trans (List.perm_insertionSort _ l2).symm))
      (List.sorted_insertionSort _ l1) (List.sorted_insertionSort _ l2)
  unfold percentile
  rw [hsort, h.length_eq]

/-! ## Claims -/

/-- C1: a TestRun's status is monotonic with respect to terminal states —
once the status is COMPLETE, PARTIAL, FAILED or CANCELLED, no subsequent
operation (polling tick, cancellation request) changes the run record, so
its status never changes again and exactly one terminal status is ever
recorded. -/
theorem c1_terminal_status_monotonic (sc : Scenario) (grace : Nat) (r : TestRun)
    (ops : List Op) (h : r.status.isTerminal = true) :
    (runOps sc grace r ops).status = r.status ∧ runOps sc grace r ops = r := by
  have main : runOps sc grace r ops = r := by
    induction ops with
    | nil => rfl
    | cons op rest ih =>
      show runOps sc grace (applyOp sc grace r op) rest = r
      rw [terminal_frozen sc grace r op h]
      exact ih
  exact ⟨by rw [main], main⟩

/-- Witness for C1 at a concrete terminal run and operation sequence. -/
theorem c1_witness :
    RunStatus.isTerminal runTerminalSample.status = true ∧
    (runOps scSample 30 runTerminalSample
        [Op.cancel, Op.poll obsSuccessSample 10]).status = runTerminalSample.status :=
  ⟨by decide,
    (c1_terminal_status_monotonic scSample 30 runTerminalSample
      [Op.cancel, Op.poll obsSuccessSample 10] (by decide)).1⟩

/-- C2 (amended): with no override the Fleet Controller computes
`workerCount = ceil(desired / capacity)` and succeeds exactly when that
count is within the maximum fleet size, failing with `CapacityExceeded`
otherwise (launching nothing); with an override the worker count is the
override capped at the maximum fleet size (the claim's uncapped override
fails, see the counterexample). -/
theorem c2_worker_count_amended (d c M : Nat) (hd : 0 < d) (hc : 0 < c) :
    (ceilDiv d c ≤ M →
      computeWorkerCount d c none M = .ok (ceilDiv d c) ∧
      d ≤ ceilDiv d c * c ∧ (ceilDiv d c - 1) * c < d) ∧
    (computeWorkerCount d c none M = .error FleetError.CapacityExceeded ↔ M < ceilDiv d c) ∧
    (∀ o : Nat, computeWorkerCount d c (some o) M = .ok (min o M)) := by
  refine ⟨?_, ?_, ?_⟩
  · intro hle
    refine ⟨?_, le_ceilDiv_mul d c hc, ceilDiv_pred_mul_lt d c hd hc⟩
    simp [computeWorkerCount, Nat.not_lt.mpr hle]
  · constructor
    · intro he
      by_cases hgt : M < ceilDiv d c
      · exact hgt
      · simp [computeWorkerCount, hgt] at he
    · intro hlt
      simp [computeWorkerCount, hlt]
  · intro o
    rfl

/-- Counterexample for C2 as stated: with override 11 and maximum fleet
size 10 the computed worker count is 10, not the override. -/
theorem c2_counterexample :
    computeWorkerCount 10 5 (some 11) 10 ≠ .ok 11 ∧
    computeWorkerCount 10 5 (some 11) 10 = .ok 10 := by
  refine ⟨?_, rfl⟩
  decide

/-- Witness for C2 at concrete inputs d = 10, c = 5, M = 4. -/
theorem c2_witness :
    0 < 10 ∧ 0 < 5 ∧ ceilDiv 10 5 ≤ 4 ∧
    computeWorkerCount 10 5 none 4 = .ok (ceilDiv 10 5) :=
  ⟨by decide, by decide, by decide,
    ((c2_worker_count_amended 10 5 4 (by decide) (by decide)).1 (by decide)).1⟩

/-- C3: a ResultSummary exists iff the run reached COMPLETE or PARTIAL —
the invariant holds at launch and is preserved by every operation — and a
run with a pending cancellation signal transitions to CANCELLING on the
next tick regardless of the observed task statuses (including the race in
which every task completes naturally in that same tick), after which no
continuation ever reaches COMPLETE or PARTIAL or acquires a summary. -/
theorem c3_summary_iff_and_cancel_race (sc : Scenario) (grace : Nat) :
    (∀ tasks : List WorkerTask, summaryInv (launchRun tasks)) ∧
    (∀ (r : TestRun) (ops : List Op), summaryInv r → summaryInv (runOps sc grace r ops)) ∧
    (∀ (r : TestRun) (obs : List (TaskStatus × Option PerWorkerSummary)) (elapsed : Nat),
      r.status = RunStatus.RUNNING → r.cancelRequested = true → r.summary = none →
      (tick sc grace r obs elapsed).run.status = RunStatus.CANCELLING ∧
      (tick sc grace r obs elapsed).run.cancelReason = some CancelReason.UserRequested ∧
      (∀ ops : List Op,
        (runOps sc grace (tick sc grace r obs elapsed).run ops).summary = none ∧
        (runOps sc grace (tick sc grace r obs elapsed).run ops).status ≠ RunStatus.COMPLETE ∧
        (runOps sc grace (tick sc grace r obs elapsed).run ops).status ≠ RunStatus.PARTIAL)) := by
  refine ⟨?_, ?_, ?_⟩
  · intro tasks
    simp only [launchRun, summaryInv]
    split_ifs <;> simp
  · intro r ops h
    induction ops generalizing r with
    | nil => exact h
    | cons op rest ih => exact ih _ (summaryInv_step sc grace r op h)
  · intro r obs elapsed h1 h2 h3
    rw [tick_cancel_precedence sc grace r obs elapsed h1 h2]
    refine ⟨rfl, rfl, ?_⟩
    intro ops
    have hc := cancelling_runOps sc grace
      (startCancel { r with tasks := updateTasks r.tasks obs }
        CancelReason.UserRequested elapsed).run ops (Or.inl rfl)
    have hsum : (startCancel { r with tasks := updateTasks r.tasks obs }
        CancelReason.UserRequested elapsed).run.summary = none := h3
    refine ⟨hc.2.1.trans hsum, ?_, ?_⟩
    · rcases hc.1 with h | h <;> simp [h]
    · rcases hc.1 with h | h <;> simp [h]

/-- Witness for C3: the invariant at a concrete launch, and the same-tick
race at a concrete run whose only task completes successfully in the tick
that observes the cancellation signal. -/
theorem c3_witness :
    summaryInv (launchRun [taskLiveSample]) ∧
    runRaceSample.status = RunStatus.RUNNING ∧
    runRaceSample.cancelRequested = true ∧
    (tick scSample 30 runRaceSample obsSuccessSample 10).run.status = RunStatus.CANCELLING ∧
    (runOps scSample 30 (tick scSample 30 runRaceSample obsSuccessSample 10).run
        [Op.poll [] 20]).summary = none := by
  refine ⟨(c3_summary_iff_and_cancel_race scSample 30).1 [taskLiveSample], rfl, rfl, ?_, ?_⟩
  · exact ((c3_summary_iff_and_cancel_race scSample 30).2.2
      runRaceSample obsSuccessSample 10 rfl rfl rfl).1
  · exact (((c3_summary_iff_and_cancel_race scSample 30).2.2
      runRaceSample obsSuccessSample 10 rfl rfl rfl).2.2 [Op.poll [] 20]).1

/-- C4: cancellation is idempotent — issuing CancelRun twice leaves the
same run state as issuing it once; on a terminal run CancelRun returns
AlreadyTerminal and changes nothing; and re-issuing stop to an
already-stopped worker task is a no-op, not an error. -/
theorem c4_cancellation_idempotent :
    (∀ r : TestRun, (cancelRun (cancelRun r).1).1 = (cancelRun r).1) ∧
    (∀ r : TestRun, r.status.isTerminal = true →
      (cancelRun r).2 = CancelResponse.alreadyTerminal ∧ (cancelRun r).1 = r) ∧
    (∀ t : WorkerTask, t.status.isTerminal = true →
      stopWorkerTask t = (t, StopResult.ok)) := by
  refine ⟨?_, ?_, ?_⟩
  · intro r
    rcases r with ⟨st, tasks, summ, reason, creq, cat⟩
    by_cases h : RunStatus.isTerminal st <;> simp [cancelRun, h]
  · intro r h
    simp [cancelRun, h]
  · intro t h
    simp [stopWorkerTask, h]

/-- Witness for C4 at a concrete terminal run and a concrete stopped task. -/
theorem c4_witness :
    RunStatus.isTerminal runTerminalSample.status = true ∧
    (cancelRun runTerminalSample).2 = CancelResponse.alreadyTerminal ∧
    TaskStatus.isTerminal taskDoneSample.status = true ∧
    stopWorkerTask taskDoneSample = (taskDoneSample, StopResult.ok) :=
  ⟨by decide,
    (c4_cancellation_idempotent.2.1 runTerminalSample (by decide)).1,
    by decide,
    c4_cancellation_idempotent.2.2 taskDoneSample (by decide)⟩

/-- C5: aggregation is order-independent — permuting the list of worker
artifacts yields an identical ResultSummary — and the summary's totals are
the direct sums of the per-worker counts, throughput sums across workers,
and each latency percentile is recomputed from the merged histogram. -/
theorem c5_aggregation_order_independent (l1 l2 : List PerWorkerSummary) (h : l1.Perm l2) :
    aggregate l1 = aggregate l2 ∧
    (∀ s : ResultSummary, aggregate l1 = .ok s →
      s.totalRequests = (l1.map (·.totalRequests)).sum ∧
      s.errorCount = (l1.map (·.errorCount)).sum ∧
      s.throughput = (l1.map (·.throughput)).sum ∧
      s.p50 = percentile (mergedLatencies l1) 50 ∧
      s.p90 = percentile (mergedLatencies l1) 90 ∧
      s.p99 = percentile (mergedLatencies l1) 99 ∧
      s.regionBreakdown = (l1.map (·.region) : List String)) := by
  constructor
  · have hreq := (h.map (·.totalRequests)).sum_eq
    have herr := (h.map (·.errorCount)).sum_eq
    have hthr := (h.map (·.throughput)).sum_eq
    have hml : (mergedLatencies l1).Perm (mergedLatencies l2) := h.flatMap_right _
    have hreg : ((l1.map (·.region) : List String) : Multiset String)
        = ((l2.map (·.region) : List String) : Multiset String) :=
      Multiset.coe_eq_coe.mpr (h.map _)
    simp only [aggregate, h.isEmpty_eq, hreq, herr, hthr, hreg,
      percentile_perm _ _ hml 50, percentile_perm _ _ hml 90, percentile_perm _ _ hml 99]
  · intro s hs
    unfold aggregate at hs
    by_cases he : l1.isEmpty <;> simp [he] at hs
    simp [← hs]

/-- Witness for C5 at a concrete two-artifact permutation. -/
theorem c5_witness :
    ([artSampleA, artSampleB] : List PerWorkerSummary).Perm [artSampleB, artSampleA] ∧
    aggregate [artSampleA, artSampleB] = aggregate [artSampleB, artSampleA] :=
  ⟨by decide, (c5_aggregation_order_independent _ _ (by decide)).1⟩

/-- C6: when elapsed time exceeds duration plus the grace window while a
task is still non-terminal (and no user cancellation is pending), the tick
escalates to CANCELLING with reason Timeout, issues a stop request to
every still-active worker, any later tick past the cancellation grace
lands on CANCELLED, and every continuation keeps reason Timeout and stays
within the CANCELLING/CANCELLED path. -/
theorem c6_timeout_cancellation (sc : Scenario) (grace : Nat) (r : TestRun)
    (obs : List (TaskStatus × Option PerWorkerSummary)) (elapsed : Nat)
    (hrun : r.status = RunStatus.RUNNING)
    (hnc : r.cancelRequested = false)
    (ht : sc.duration + grace < elapsed)
    (hactive : (updateTasks r.tasks obs).all (fun t => t.status.isTerminal) = false) :
    (tick sc grace r obs elapsed).run.status = RunStatus.CANCELLING ∧
    (tick sc grace r obs elapsed).run.cancelReason = some CancelReason.Timeout ∧
    (tick sc grace r obs elapsed).stopRequests = stopTargets (updateTasks r.tasks obs) ∧
    (∀ (obs2 : List (TaskStatus × Option PerWorkerSummary)) (e2 : Nat),
      elapsed + grace ≤ e2 →
      (tick sc grace (tick sc grace r obs elapsed).run obs2 e2).run.status
        = RunStatus.CANCELLED ∧
      (tick sc grace (tick sc grace r obs elapsed).run obs2 e2).run.cancelReason
        = some CancelReason.Timeout) ∧
    (∀ ops : List Op,
      (runOps sc grace (tick sc grace r obs elapsed).run ops).cancelReason
        = some CancelReason.Timeout ∧
      ((runOps sc grace (tick sc grace r obs elapsed).run ops).status = RunStatus.CANCELLING ∨
        (runOps sc grace (tick sc grace r obs elapsed).run ops).status
          = RunStatus.CANCELLED)) := by
  rcases r with ⟨st, tasks, summ, reason, creq, cat⟩
  simp only at hrun hnc
  subst hrun
  subst hnc
  have htick : tick sc grace ⟨RunStatus.RUNNING, tasks, summ, reason, false, cat⟩ obs elapsed
      = startCancel ⟨RunStatus.RUNNING, updateTasks tasks obs, summ, reason, false, cat⟩
          CancelReason.Timeout elapsed := by
    simp [tick, hactive, ht]
  rw [htick]
  refine ⟨rfl, rfl, rfl, ?_, ?_⟩
  · intro obs2 e2 he2
    simp only [startCancel, tick]
    split_ifs <;> simp_all
  · intro ops
    have hc := cancelling_runOps sc grace
      (startCancel ⟨RunStatus.RUNNING, updateTasks tasks obs, summ, reason, false, cat⟩
        CancelReason.Timeout elapsed).run ops (Or.inl rfl)
    exact ⟨hc.2.2, hc.1⟩

/-- Witness for C6 at a concrete timed-out run with one live worker. -/
theorem c6_witness :
    runTimeoutSample.status = RunStatus.RUNNING ∧
    runTimeoutSample.cancelRequested = false ∧
    scSample.duration + 30 < 100 ∧
    (updateTasks runTimeoutSample.tasks []).all (fun t => t.status.isTerminal) = false ∧
    (tick scSample 30 runTimeoutSample [] 100).run.status = RunStatus.CANCELLING ∧
    (tick scSample 30 runTimeoutSample [] 100).run.cancelReason
      = some CancelReason.Timeout := by
  have H := c6_timeout_cancellation scSample 30 runTimeoutSample [] 100
    rfl rfl (by decide) (by decide)
  exact ⟨rfl, rfl, by decide, by decide, H.1, H.2.1⟩

/-- C7 (amended): the round-robin distribution gives every region either
`workerCount / regionCount` or one more worker — the first-listed regions
receiving the extras, so the first region gets the ceiling — with counts
differing by at most 1 between any two regions and summing to workerCount
(the claim's "remainder assigned to the first listed region" and "each
region gets the ceiling" fail, see the counterexample). -/
theorem c7_region_distribution_amended (w : Nat) (regions : List String)
    (h : regions ≠ []) :
    (((distributeWorkers w regions).map Prod.snd).sum = w) ∧
    ((distributeWorkers w regions).map Prod.fst = regions) ∧
    (∀ p1 ∈ distributeWorkers w regions, ∀ p2 ∈ distributeWorkers w regions,
      p1.2 ≤ p2.2 + 1) ∧
    ((distributeWorkers w regions).head?.map Prod.snd = some (ceilDiv w regions.length)) ∧
    (∀ p ∈ distributeWorkers w regions,
      p.2 = w / regions.length ∨ p.2 = w / regions.length + 1) := by
  have hr : 0 < regions.length := List.length_pos.mpr h
  have hlen : (shareList w regions.length).length = regions.length := shareList_length w _
  have hsnd : (distributeWorkers w regions).map Prod.snd = shareList w regions.length :=
    List.map_snd_zip _ _ (le_of_eq hlen)
  have hmem : ∀ p ∈ distributeWorkers w regions,
      p.2 = w / regions.length ∨ p.2 = w / regions.length + 1 := by
    intro p hp
    rcases p with ⟨a, b⟩
    have hb : b ∈ shareList w regions.length := (List.of_mem_zip hp).2
    exact mem_shareList _ _ _ hb
  refine ⟨?_, ?_, ?_, ?_, hmem⟩
  · rw [hsnd, shareList_sum w _ hr]
  · exact List.map_fst_zip _ _ (ge_of_eq hlen)
  · intro p1 h1 p2 h2
    rcases hmem p1 h1 with h | h <;> rcases hmem p2 h2 with h | h <;> omega
  · rcases regions with _ | ⟨a, rest⟩
    · exact absurd rfl h
    · simp only [distributeWorkers, shareList, List.length_cons, List.range_succ_eq_map,
        List.map_cons, List.zip_cons_cons, List.head?_cons, Option.map_some]
      rw [ceilDiv_eq_div_add_ind w (rest.length + 1) (by omega)]
      rfl

/-- Counterexample for C7 as stated: 5 workers over 3 regions give the
round-robin counts (2, 2, 1) — the third region does not get
`ceil(5 / 3) = 2`, and the remainder is not all assigned to the first
listed region. -/
theorem c7_counterexample :
    distributeWorkers 5 ["a", "b", "c"] = [("a", 2), ("b", 2), ("c", 1)] ∧
    ceilDiv 5 3 = 2 ∧
    ¬ (∀ p ∈ distributeWorkers 5 ["a", "b", "c"], p.2 = ceilDiv 5 3) := by
  decide

/-- Witness for C7 at 5 workers over three concrete regions. -/
theorem c7_witness :
    (["r1", "r2", "r3"] : List String) ≠ [] ∧
    ((distributeWorkers 5 ["r1", "r2", "r3"]).map Prod.snd).sum = 5 :=
  ⟨by decide, (c7_region_distribution_amended 5 ["r1", "r2", "r3"] (by decide)).1⟩

/-- C8: for every instantiation of CognitoAuthConstruct, the identity pool
has allowUnauthenticatedIdentities false and the user pool has self
sign-up disabled with a password policy of minimum length 12 requiring
lowercase, uppercase, digits and symbols. -/
theorem c8_cognito_locked_down (props : CognitoAuthConstructProps) :
    (cognitoAuthConstruct props).identityPool.allowUnauthenticatedIdentities = false ∧
    (cognitoAuthConstruct props).userPool.selfSignUpEnabled = false ∧
    (cognitoAuthConstruct props).userPool.passwordPolicy.minLength = 12 ∧
    (cognitoAuthConstruct props).userPool.passwordPolicy.requireLowercase = true ∧
    (cognitoAuthConstruct props).userPool.passwordPolicy.requireUppercase = true ∧
    (cognitoAuthConstruct props).userPool.passwordPolicy.requireDigits = true ∧
    (cognitoAuthConstruct props).userPool.passwordPolicy.requireSymbols = true :=
  ⟨rfl, rfl, rfl, rfl, rfl, rfl, rfl⟩

/-- C9: for every instantiation of DLTConsoleConstruct, the CloudFront
distribution rewrites both 403 and 404 error responses to status 200
serving /index.html. -/
theorem c9_console_spa_error_rewrites (props : DLTConsoleConstructProps) :
    (dltConsoleConstruct props).distribution.errorResponses =
      [⟨403, 200, "/index.html"⟩, ⟨404, 200, "/index.html"⟩] :=
  rfl

/-- C10: a new Cognito user pool resource is created iff the
existingCognitoPoolId prop is the empty string, and the exposed
cognitoUserPoolId is the new pool's id in that case and the existing pool
id otherwise. -/
theorem c10_user_pool_created_iff_no_existing (props : CognitoAuthConstructProps) :
    ((cognitoAuthConstruct props).userPoolCreated = true ↔
      props.existingCognitoPoolId = "") ∧
    ((cognitoAuthConstruct props).cognitoUserPoolId =
      if props.existingCognitoPoolId = "" then dltUserPoolRefToken
      else props.existingCognitoPoolId) := by
  constructor
  · by_cases h : props.existingCognitoPoolId = "" <;> simp [cognitoAuthConstruct, h]
  · rfl

end DLT
